import Mathlib

/-!
# Rating widget binder (`templates/js/ratings.js`)

A shallow embedding of the click listener that `ratings.js` attaches to every
`.rating-buttons` group, together with the parts of the host platform it calls:
`parseInt`, the Number-to-String conversion performed by `FormData.append` and by the
`textContent` setter, `querySelector`, `fetch`, and the `then / then / catch` promise chain.

Conventions of the embedding

* Text is handled as `List Char` where the platform inspects it character by character.
* The page is a state record (`World`): the text content of every element (by element id),
  the log of calls made to `fetch`, the log of `console.error` entries, and the log of
  `textContent` writes.
* A promise is represented by the way it settles (`Except JSError α`); the reactions of one
  promise chain are composed in the order in which `ratings.js` chains them.  The only
  reactions of the chain that touch the state are the last two (the display write and
  `console.error`), so running one chain is a single state transition (`Continuation.settle`).
-/

namespace Ratings

/-! ## Number values -/

/-- Number values that can reach this program.  `integer neg mag` is the finite Number whose
mathematical value is the integer `±mag` (`integer true 0` is the negative zero); `mag` is
meant to be exactly representable in binary64.  A finite Number that is not an integer is
identified by the text `Number::toString` produces for it (that conversion is injective on
Numbers, and the text is the only thing the program ever derives from such a value). -/
inductive JSNumber
  | nan
  | infinity (neg : Bool)
  | integer (neg : Bool) (mag : Nat)
  | fraction (rendering : String)
  deriving DecidableEq, Repr

/-- Number of binary digits of `n`, computed with `fuel` halving steps. -/
def bitLengthAux : Nat → Nat → Nat
  | 0, _ => 0
  | fuel + 1, n => if n = 0 then 0 else bitLengthAux fuel (n / 2) + 1

/-- Number of binary digits of `n` (`0` for `0`). -/
def bitLength (n : Nat) : Nat := bitLengthAux n n

/-- The binary64 value nearest to the natural number `n`, ties to the even significand;
`none` when the rounded value does not fit the exponent range (the result is an infinity).
Below `2 ^ 53` every natural number is representable; above, the value keeps its 53 leading
bits and the `e` dropped bits decide the rounding. -/
def roundToDouble (n : Nat) : Option Nat :=
  if n < 2 ^ 53 then some n
  else
    let e := bitLength n - 53
    let q := n / 2 ^ e
    let r := n % 2 ^ e
    let half := 2 ^ (e - 1)
    let qRounded := if r < half then q else if half < r then q + 1
      else if q % 2 = 0 then q else q + 1
    let v := qRounded * 2 ^ e
    if bitLength v ≤ 1024 then some v else none

/-- The decimal numeral with the fewest significant digits that still rounds to the
integer-valued Number `m`: candidates with trailing block `10 ^ j` are tried from the
coarsest block down, taking the two multiples of the block that enclose `m` and, when both
round to `m`, the one nearer to `m`. -/
def shortestDecimal (m : Nat) : Nat → Nat
  | 0 => m
  | j + 1 =>
    let p := 10 ^ j
    let lo := m / p * p
    let hi := lo + p
    if roundToDouble lo = some m ∧ roundToDouble hi = some m then
      (if m - lo < hi - m then lo else if hi - m < m - lo then hi
       else if (m / p) % 2 = 0 then lo else hi)
    else if roundToDouble lo = some m then lo
    else if roundToDouble hi = some m then hi
    else shortestDecimal m j

/-- Removes the zeros that end a digit list. -/
def dropTrailingZeros (ds : List Char) : List Char :=
  (ds.reverse.dropWhile (fun c => c = '0')).reverse

/-- `Number::toString` of a positive integer-valued Number: plain digits below `10 ^ 21`,
exponent form from there on. -/
def renderInteger (m : Nat) : String :=
  let c := shortestDecimal m (Nat.toDigits 10 m).length
  if c < 10 ^ 21 then Nat.repr c
  else
    let ds := Nat.toDigits 10 c
    let mantissa := match dropTrailingZeros ds with
      | [] => []
      | [d] => [d]
      | d :: rest => d :: '.' :: rest
    String.mk mantissa ++ "e+" ++ Nat.repr (ds.length - 1)

/-- `Number::toString` (radix 10), the conversion `FormData.append` and the `textContent`
setter apply to a Number. -/
def numberToString : JSNumber → String
  | .nan => "NaN"
  | .infinity neg => if neg then "-Infinity" else "Infinity"
  | .integer neg m => if m = 0 then "0" else (if neg then "-" else "") ++ renderInteger m
  | .fraction r => r

/-! ## `parseInt` -/

/-- White space and line terminators, the characters `TrimString` removes. -/
def isWhiteSpace (c : Char) : Bool :=
  c.toNat ∈ [0x09, 0x0A, 0x0B, 0x0C, 0x0D, 0x20, 0xA0, 0x1680, 0x2028, 0x2029, 0x202F, 0x205F,
    0x3000, 0xFEFF] || (0x2000 ≤ c.toNat && c.toNat ≤ 0x200A)

/-- Value of a character as a digit: `0-9`, then `a-z` or `A-Z` for ten to thirty-five. -/
def digitValue (c : Char) : Option Nat :=
  if 48 ≤ c.toNat ∧ c.toNat ≤ 57 then some (c.toNat - 48)
  else if 97 ≤ c.toNat ∧ c.toNat ≤ 122 then some (c.toNat - 87)
  else if 65 ≤ c.toNat ∧ c.toNat ≤ 90 then some (c.toNat - 55)
  else none

/-- Whether `c` is a digit of radix `R`. -/
def isRadixDigit (R : Nat) (c : Char) : Bool :=
  match digitValue c with
  | some d => d < R
  | none => false

/-- The integer written by the digit list `Z` in radix `R`. -/
def mathIntOf (R : Nat) (Z : List Char) : Nat :=
  Z.foldl (fun acc c => acc * R + (digitValue c).getD 0) 0

/-- The text left after leading white space is trimmed (step 2 of `parseInt`). -/
def trimStart (S : List Char) : List Char := S.dropWhile isWhiteSpace

/-- The text left after one leading sign is removed (step 5 of `parseInt`). -/
def dropSign (S : List Char) : List Char :=
  if S.head? = some '+' ∨ S.head? = some '-' then S.tail else S

/-- Whether the text starts with `0x` or `0X` (step 10 of `parseInt`). -/
def startsWithHexMark (S : List Char) : Bool :=
  S.take 2 = ['0', 'x'] ∨ S.take 2 = ['0', 'X']

/-- The global `parseInt (string, radix)` on the characters of `string`; `radix` is the
radix argument after `ToInt32` (non-negative here), `0` when the argument is omitted.
The integer is read exactly (the licence to approximate digits past the twentieth is not
used) and then rounded to a Number. -/
def parseIntChars (input : List Char) (radix : Nat) : JSNumber :=
  let S := trimStart input
  let neg : Bool := S.head? = some '-'
  let S := dropSign S
  if radix ≠ 0 ∧ (radix < 2 ∨ 36 < radix) then .nan
  else
    let stripHex : Bool := radix = 0 ∨ radix = 16
    let R := if radix = 0 then 10 else radix
    let hex : Bool := stripHex && startsWithHexMark S
    let S := if hex then S.drop 2 else S
    let R := if hex then 16 else R
    let Z := S.takeWhile (isRadixDigit R)
    if Z = [] then .nan
    else
      let mathInt := mathIntOf R Z
      if mathInt = 0 then .integer neg 0
      else match roundToDouble mathInt with
        | some v => .integer neg v
        | none => .infinity neg

/-- The global `parseInt` on a string. -/
def parseInt (string : String) (radix : Nat) : JSNumber :=
  parseIntChars string.toList radix

/-! ## Values of a parsed JSON body -/

/-- ECMAScript values as `JSON.parse` builds them, with `undefined` for a property that is
not there.  The members of an object are listed in the order of the JSON text. -/
inductive JSValue
  | undefined
  | null
  | boolean (b : Bool)
  | number (n : JSNumber)
  | string (s : String)
  | array (items : List JSValue)
  | object (members : List (String × JSValue))

mutual
/-- `ToString` of a value built by `JSON.parse`. -/
def JSValue.toStr : JSValue → String
  | .undefined => "undefined"
  | .null => "null"
  | .boolean b => if b then "true" else "false"
  | .number n => numberToString n
  | .string s => s
  | .array items => joinItems items
  | .object _ => "[object Object]"
/-- `Array.prototype.join` with a comma: `null` and `undefined` items contribute no text. -/
def joinItems : List JSValue → String
  | [] => ""
  | v :: rest =>
    let head := match v with
      | .undefined => ""
      | .null => ""
      | w => JSValue.toStr w
    match rest with
    | [] => head
    | _ :: _ => head ++ "," ++ joinItems rest
end

/-- The value stored under `name` by the last member with that key (a repeated key of a
JSON object keeps its last value). -/
def lookupLast {α : Type} : List (String × α) → String → Option α
  | [], _ => none
  | (k, v) :: rest, name =>
    match lookupLast rest name with
    | some w => some w
    | none => if k = name then some v else none

/-! ## Errors, responses, the page -/

/-- Values thrown or used as rejection reasons: the error with which `fetch` rejects, the
error with which `response.json ()` rejects, and the two `TypeError`s of a property access
on `null` or `undefined`. -/
inductive JSError
  | networkError
  | bodyNotJSON
  | cannotReadProperty (name : String)
  | cannotSetProperty (name : String)
  deriving DecidableEq, Repr

/-- A `Response`: its HTTP status and the way the promise of `response.json ()` settles. -/
structure Response where
  status : Nat
  json : Except JSError JSValue

/-- The way the promise returned by `fetch` settles: rejected (no response was obtained) or
fulfilled with a response of any status. -/
inductive FetchOutcome
  | rejected (reason : JSError)
  | fulfilled (response : Response)

/-- An element of the page: an identity, its classes and its attributes. -/
structure Element where
  id : Nat
  classes : List String
  attributes : List (String × String)
  deriving DecidableEq, Repr

/-- The `dataset` getter: `dataset.name` is the attribute `data-name`, or `undefined`
(`none`) when the element does not carry it. -/
def Element.dataset (el : Element) (name : String) : Option String :=
  el.attributes.lookup ("data-" ++ name)

/-- `ToString` of a string or `undefined`. -/
def stringOrUndefined : Option String → String
  | some s => s
  | none => "undefined"

/-- A rating group: an element matched by `.rating-buttons` and its descendants in tree
order. -/
structure Group where
  self : Element
  descendants : List Element
  deriving DecidableEq, Repr

/-- `group.querySelector ('.cls')`: the first descendant carrying the class, or `null`. -/
def Group.querySelector (g : Group) (cls : String) : Option Element :=
  g.descendants.find? (fun el => el.classes.contains cls)

/-- Whether an event targeted at `el` passes through the group (the group is `el` itself or
one of its ancestors). -/
def Group.contains (g : Group) (el : Element) : Bool :=
  g.self.id == el.id || g.descendants.any (fun d => d.id == el.id)

/-- The entries of a `FormData` object, in insertion order. -/
abbrev FormData := List (String × String)

/-- `formData.append (name, value)` with a Number value, which is converted to a string. -/
def FormData.append (fd : FormData) (name : String) (value : JSNumber) : FormData :=
  fd ++ [(name, numberToString value)]

/-- The arguments of one call to `fetch`. -/
structure FetchCall where
  url : String
  method : String
  headers : List (String × String)
  body : FormData
  deriving DecidableEq, Repr

/-- State of the page as far as the script can change or observe it. -/
structure World where
  text : Nat → String
  fetches : List FetchCall
  console : List JSError
  writes : List (Nat × String)

/-- The text map after the text of element `id` is replaced by `s`. -/
def setText (text : Nat → String) (id : Nat) (s : String) : Nat → String :=
  fun i => if i = id then s else text i

/-! ## The promise chain -/

/-- Settled state of a promise. -/
abbrev Settled (α : Type) := Except JSError α

/-- `p.then (onFulfilled)`: the reaction runs on fulfilment; a rejection passes through. -/
def Settled.andThen {α β : Type} (p : World × Settled α)
    (onFulfilled : α → World → World × Settled β) : World × Settled β :=
  match p.2 with
  | .ok a => onFulfilled a p.1
  | .error e => (p.1, .error e)

/-- `p.catch (onRejected)`: the reaction runs on rejection; a fulfilment passes through. -/
def Settled.orCatch {α : Type} (p : World × Settled α)
    (onRejected : JSError → World → World × Settled α) : World × Settled α :=
  match p.2 with
  | .ok a => (p.1, .ok a)
  | .error e => onRejected e p.1

/-- `data.rating_sum`: a `TypeError` on `null` or `undefined`; the own property of an object
when it has one; `undefined` otherwise (no primitive wrapper, array or `Object.prototype`
has a property of that name). -/
def readRatingSum (data : JSValue) : Settled JSValue :=
  match data with
  | .undefined => .error (.cannotReadProperty "rating_sum")
  | .null => .error (.cannotReadProperty "rating_sum")
  | .object members => .ok ((lookupLast members "rating_sum").getD .undefined)
  | _ => .ok .undefined

/-- The string the `textContent` setter receives for a value: the attribute is a nullable
string, so `null` and `undefined` become the empty string and anything else is converted
with `ToString`. -/
def textContentString : JSValue → String
  | .undefined => ""
  | .null => ""
  | v => v.toStr

/-- `ratingSum.textContent = v`: a `TypeError` when `ratingSum` is `null`, otherwise the
element text is replaced. -/
def setTextContent (ratingSum : Option Element) (v : JSValue) (w : World) :
    World × Settled Unit :=
  match ratingSum with
  | none => (w, .error (.cannotSetProperty "textContent"))
  | some el =>
    ({ w with
        text := setText w.text el.id (textContentString v)
        writes := w.writes ++ [(el.id, textContentString v)] }, .ok ())

/-- `console.error (error)`. -/
def consoleError (error : JSError) (w : World) : World × Settled Unit :=
  ({ w with console := w.console ++ [error] }, .ok ())

/-- `fetch (url, init)`: the call is recorded; the promise it returns settles later. -/
def fetch (call : FetchCall) (w : World) : World :=
  { w with fetches := w.fetches ++ [call] }

/-- What one run of the click listener leaves pending: the promise chain, which closes over
the display element looked up at click time. -/
structure Continuation where
  ratingSum : Option Element
  deriving DecidableEq, Repr

/-- The promise chain of the listener, run once the promise of `fetch` has settled with
`outcome`.  The right-hand side `data.rating_sum` is evaluated before the property is put. -/
def Continuation.settle (k : Continuation) (outcome : FetchOutcome) (w : World) :
    World × Settled Unit :=
  let fetched : World × Settled Response :=
    match outcome with
    | .rejected reason => (w, .error reason)
    | .fulfilled response => (w, .ok response)
  let parsed : World × Settled JSValue :=
    Settled.andThen fetched (fun response w => (w, response.json))
  let written : World × Settled Unit :=
    Settled.andThen parsed (fun data w =>
      match readRatingSum data with
      | .error e => (w, .error e)
      | .ok v => setTextContent k.ratingSum v w)
  Settled.orCatch written (fun error w => consoleError error w)

/-! ## The click listener and its binding -/

/-- The listener `ratings.js` adds to the group `button`, run for a click whose
`event.target` is `target`; `csrftoken` is the page-global token at that moment. -/
def clickListener (csrftoken : String) (button : Group) (target : Element) (w : World) :
    World × Continuation :=
  let value := parseInt (stringOrUndefined (target.dataset "value")) 0
  let postId := parseInt (stringOrUndefined (target.dataset "post")) 0
  let ratingSum := button.querySelector "rating-sum"
  let formData : FormData := []
  let formData := formData.append "post_id" postId
  let formData := formData.append "value" value
  let w := fetch
    { url := "/rating/"
      method := "POST"
      headers := [("X-CSRFToken", csrftoken), ("X-Requested-With", "XMLHttpRequest")]
      body := formData } w
  (w, { ratingSum := ratingSum })

/-- Dispatch of one click at `target`: `ratingButtons` are the groups found by
`document.querySelectorAll ('.rating-buttons')`, each of which got the listener from
`forEach`; the listeners of the groups on the event path run from the innermost group
outwards (the reverse of the tree order).  Returns the new state and the promise chains
started. -/
def dispatchClick (csrftoken : String) (ratingButtons : List Group) (target : Element)
    (w : World) : World × List Continuation :=
  ((ratingButtons.filter (fun g => g.contains target)).reverse).foldl
    (fun acc button =>
      let r := clickListener csrftoken button target acc.1
      (r.1, acc.2 ++ [r.2]))
    (w, [])

/-- Runs the promise chain `k` once for every outcome, in the order given (the order in
which the transport resolves the requests of one group). -/
def settleAll (k : Continuation) : List FetchOutcome → World → World
  | [], w => w
  | o :: os, w => settleAll k os (k.settle o w).1

/-- A click on `target` inside `button` followed, with nothing in between, by the settling
of the request it issued. -/
def clickThenSettle (csrftoken : String) (button : Group) (target : Element)
    (outcome : FetchOutcome) (w : World) : World × Settled Unit :=
  let clicked := clickListener csrftoken button target w
  clicked.2.settle outcome clicked.1

/-- The two headers the listener passes to `fetch`. -/
def ratingHeaders (csrftoken : String) : List (String × String) :=
  [("X-CSRFToken", csrftoken), ("X-Requested-With", "XMLHttpRequest")]

/-! ## Vocabulary of the specification -/

/-- Decimal digit characters. -/
def isDecimalDigit (c : Char) : Bool := 48 ≤ c.toNat && c.toNat ≤ 57

/-- The natural number written by a non-empty list of decimal digits. -/
def decimalValue (ds : List Char) : Option Nat :=
  if ds ≠ [] ∧ ds.all isDecimalDigit then
    some (ds.foldl (fun acc c => 10 * acc + (c.toNat - 48)) 0)
  else none

/-- The integer a text denotes when it is an integer numeral (an optional sign and one or
more decimal digits, nothing else); `none` for any other text. -/
def readInteger (text : String) : Option Int :=
  let cs := text.toList
  if cs.head? = some '-' then (decimalValue cs.tail).map (fun (n : Nat) => -(n : Int))
  else if cs.head? = some '+' then (decimalValue cs.tail).map (fun (n : Nat) => (n : Int))
  else (decimalValue cs).map (fun (n : Nat) => (n : Int))

/-- The decimal numeral of an integer. -/
def integerText (n : Int) : String :=
  if n < 0 then "-" ++ Nat.repr n.natAbs else Nat.repr n.natAbs

/-- Whether an attribute gives `parseInt` nothing to read: it is absent, or what follows its
leading white space and sign does not begin with a decimal digit. -/
def lacksLeadingDigit : Option String → Bool
  | none => true
  | some s =>
    match dropSign (trimStart s.toList) with
    | [] => true
    | c :: _ => !isDecimalDigit c

/-- Whether a text, after its leading white space and sign, starts with `0x` or `0X`. -/
def hasHexMark (s : String) : Bool :=
  startsWithHexMark (dropSign (trimStart s.toList))

/-- The `rating_sum` a completion delivers to the display write, when it gets that far:
the request was answered, the body parsed, and the property could be read. -/
def successSum : FetchOutcome → Option JSValue
  | .rejected _ => none
  | .fulfilled response =>
    match response.json with
    | .error _ => none
    | .ok data =>
      match readRatingSum data with
      | .ok v => some v
      | .error _ => none

/-- The `rating_sum` of the last successful completion of a list given in resolution
order. -/
def lastSuccessfulSum : List FetchOutcome → Option JSValue
  | [] => none
  | o :: os =>
    match lastSuccessfulSum os with
    | some v => some v
    | none => successSum o

/-! ## A sample page -/

/-- A control rendered with `data-value="1" data-post="7"`. -/
def plusOne : Element :=
  { id := 2, classes := ["rating-button"], attributes := [("data-value", "1"), ("data-post", "7")] }

/-- The sum display of the first group. -/
def sumOfSeven : Element := { id := 3, classes := ["rating-sum"], attributes := [] }

/-- The rating group of post 7. -/
def groupSeven : Group :=
  { self := { id := 1, classes := ["rating-buttons"], attributes := [] }
    descendants := [plusOne, sumOfSeven] }

/-- A control of a second group, rendered with `data-value="-1" data-post="8"`. -/
def minusOne : Element :=
  { id := 12, classes := ["rating-button"], attributes := [("data-value", "-1"), ("data-post", "8")] }

/-- The sum display of the second group. -/
def sumOfEight : Element := { id := 13, classes := ["rating-sum"], attributes := [] }

/-- The rating group of post 8. -/
def groupEight : Group :=
  { self := { id := 11, classes := ["rating-buttons"], attributes := [] }
    descendants := [minusOne, sumOfEight] }

/-- A control inside a group that has no sum display. -/
def loneControl : Element :=
  { id := 22, classes := ["rating-button"], attributes := [("data-value", "1"), ("data-post", "9")] }

/-- A rating group without a `.rating-sum` element. -/
def bareGroup : Group :=
  { self := { id := 21, classes := ["rating-buttons"], attributes := [] }
    descendants := [loneControl] }

/-- A control whose post identifier lies beyond `2 ^ 53`. -/
def hugePostControl : Element :=
  { id := 32, classes := ["rating-button"]
    attributes := [("data-value", "1"), ("data-post", "9007199254740993")] }

/-- A control whose rating value starts with digits and goes on with letters. -/
def mixedValueControl : Element :=
  { id := 33, classes := ["rating-button"]
    attributes := [("data-value", "12abc"), ("data-post", "7")] }

/-- A control whose rating value is written with a hexadecimal mark. -/
def hexValueControl : Element :=
  { id := 34, classes := ["rating-button"]
    attributes := [("data-value", "0x10"), ("data-post", "7")] }

/-- A control that carries neither attribute and one whose value is not a number. -/
def wordValueControl : Element :=
  { id := 35, classes := ["rating-button"], attributes := [("data-value", "abc")] }

/-- A group holding the unusual controls and a display. -/
def oddGroup : Group :=
  { self := { id := 31, classes := ["rating-buttons"], attributes := [] }
    descendants := [hugePostControl, mixedValueControl, hexValueControl, wordValueControl,
      { id := 36, classes := ["rating-sum"], attributes := [] }] }

/-- The page before any click: display texts `10` and `5`, nothing sent or logged. -/
def freshPage : World :=
  { text := fun i => if i = 3 then "10" else if i = 13 then "5" else ""
    fetches := []
    console := []
    writes := [] }

/-- A response body `rating_sum: n` with an integer `n`. -/
def sumBody (n : Nat) : JSValue := .object [("rating_sum", .number (.integer false n))]

/-! ## Lemmas on numbers and `parseInt` -/

theorem bitLengthAux_zero (fuel : Nat) : bitLengthAux fuel 0 = 0 := by
  cases fuel <;> simp [bitLengthAux]

theorem bitLengthAux_bounds (fuel : Nat) :
    ∀ n, n ≤ fuel → n < 2 ^ bitLengthAux fuel n ∧ (0 < n → 2 ^ (bitLengthAux fuel n - 1) ≤ n) := by
  induction fuel with
  | zero =>
    intro n hn
    have h0 : n = 0 := by omega
    subst h0
    simp [bitLengthAux]
  | succ fuel ih =>
    intro n hn
    by_cases h0 : n = 0
    · subst h0
      simp [bitLengthAux]
    · have hhalf : n / 2 ≤ fuel := by omega
      obtain ⟨hlt, hge⟩ := ih (n / 2) hhalf
      simp only [bitLengthAux, if_neg h0, Nat.add_sub_cancel]
      refine ⟨?_, fun _ => ?_⟩
      · rw [Nat.pow_succ]
        omega
      · by_cases h1 : n / 2 = 0
        · rw [h1, bitLengthAux_zero]
          simp
          omega
        · have hpos : 0 < n / 2 := Nat.pos_of_ne_zero h1
          have h2 := hge hpos
          have hL : 0 < bitLengthAux fuel (n / 2) := by
            rcases Nat.eq_zero_or_pos (bitLengthAux fuel (n / 2)) with hz | hz
            · rw [hz] at hlt
              simp at hlt
              omega
            · exact hz
          have hpow : 2 ^ bitLengthAux fuel (n / 2) = 2 * 2 ^ (bitLengthAux fuel (n / 2) - 1) := by
            conv_lhs => rw [show bitLengthAux fuel (n / 2) = (bitLengthAux fuel (n / 2) - 1) + 1 by omega]
            rw [Nat.pow_succ, Nat.mul_comm]
          omega

theorem lt_two_pow_bitLength (n : Nat) : n < 2 ^ bitLength n :=
  (bitLengthAux_bounds n n (Nat.le_refl n)).1

theorem two_pow_bitLength_le (n : Nat) (h : 0 < n) : 2 ^ (bitLength n - 1) ≤ n :=
  (bitLengthAux_bounds n n (Nat.le_refl n)).2 h

theorem roundToDouble_of_lt (n : Nat) (h : n < 2 ^ 53) : roundToDouble n = some n := by
  unfold roundToDouble
  rw [if_pos h]

theorem roundToDouble_ge (n v : Nat) (h : 2 ^ 53 ≤ n) (hv : roundToDouble n = some v) :
    2 ^ 53 ≤ v := by
  have hnlt : ¬ n < 2 ^ 53 := by omega
  have hL : 53 < bitLength n := by
    have h1 := lt_two_pow_bitLength n
    have h2 : 2 ^ 53 < 2 ^ bitLength n := Nat.lt_of_le_of_lt h h1
    exact (Nat.pow_lt_pow_iff_right (by decide)).1 h2
  have hpos : 0 < n := by
    have : 0 < 2 ^ 53 := (by positivity)
    omega
  have hb := two_pow_bitLength_le n hpos
  obtain ⟨e, he⟩ : ∃ e, bitLength n - 53 = e := ⟨_, rfl⟩
  have he1 : 1 ≤ e := by omega
  have hq : 2 ^ 52 ≤ n / 2 ^ e := by
    rw [Nat.le_div_iff_mul_le ((by positivity))]
    rw [← Nat.pow_add]
    have : 52 + e = bitLength n - 1 := by omega
    rw [this]
    exact hb
  have hpe : 2 ≤ 2 ^ e := by
    calc 2 = 2 ^ 1 := by norm_num
      _ ≤ 2 ^ e := Nat.pow_le_pow_right (by decide) he1
  have key : ∀ q, n / 2 ^ e ≤ q → 2 ^ 53 ≤ q * 2 ^ e := by
    intro q hqq
    calc 2 ^ 53 = 2 ^ 52 * 2 := by norm_num
      _ ≤ (n / 2 ^ e) * 2 ^ e := Nat.mul_le_mul hq hpe
      _ ≤ q * 2 ^ e := Nat.mul_le_mul_right _ hqq
  simp only [roundToDouble, if_neg hnlt, he] at hv
  split_ifs at hv <;> injection hv with hv <;> rw [← hv] <;> apply key <;> omega

theorem shortestDecimal_of_lt (m : Nat) (h : m < 2 ^ 53) : ∀ j, shortestDecimal m j = m := by
  intro j
  induction j with
  | zero => rfl
  | succ j ih =>
    have hp : 0 < 10 ^ j := (by positivity)
    have hlo : m / 10 ^ j * 10 ^ j ≤ m := Nat.div_mul_le_self m _
    have hhi : m < m / 10 ^ j * 10 ^ j + 10 ^ j := by
      have := Nat.lt_div_mul_add hp (a := m)
      exact this
    have hloR : roundToDouble (m / 10 ^ j * 10 ^ j) = some (m / 10 ^ j * 10 ^ j) :=
      roundToDouble_of_lt _ (by omega)
    have hhiR : roundToDouble (m / 10 ^ j * 10 ^ j + 10 ^ j) ≠ some m := by
      intro hc
      by_cases hb : m / 10 ^ j * 10 ^ j + 10 ^ j < 2 ^ 53
      · rw [roundToDouble_of_lt _ hb] at hc
        injection hc with hc
        omega
      · have := roundToDouble_ge _ _ (by omega) hc
        omega
    simp only [shortestDecimal, hloR, hhiR, and_false, if_false]
    split
    · rename_i heq
      injection heq
    · exact ih

theorem renderInteger_of_lt (m : Nat) (h : m < 2 ^ 53) : renderInteger m = Nat.repr m := by
  have hlt : m < 10 ^ 21 := by
    have : (2 : Nat) ^ 53 < 10 ^ 21 := by norm_num
    omega
  simp only [renderInteger, shortestDecimal_of_lt m h, if_pos hlt]

theorem isWhiteSpace_digit (c : Char) (h : isDecimalDigit c = true) : isWhiteSpace c = false := by
  simp only [isDecimalDigit, Bool.and_eq_true, decide_eq_true_eq] at h
  simp [isWhiteSpace]
  omega

theorem isRadixDigit_ten (c : Char) (h : isDecimalDigit c = true) : isRadixDigit 10 c = true := by
  simp only [isDecimalDigit, Bool.and_eq_true, decide_eq_true_eq] at h
  simp [isRadixDigit, digitValue, h]
  omega

theorem digitValue_digit (c : Char) (h : isDecimalDigit c = true) :
    digitValue c = some (c.toNat - 48) := by
  simp only [isDecimalDigit, Bool.and_eq_true, decide_eq_true_eq] at h
  simp [digitValue, h]

theorem foldl_digits (ds : List Char) (hall : ∀ c ∈ ds, isDecimalDigit c = true) :
    ∀ acc, ds.foldl (fun acc c => acc * 10 + (digitValue c).getD 0) acc
      = ds.foldl (fun acc c => 10 * acc + (c.toNat - 48)) acc := by
  induction ds with
  | nil => intro acc; rfl
  | cons c cs ih =>
    intro acc
    have hc := digitValue_digit c (hall c (List.mem_cons_self _ _))
    simp only [List.foldl_cons, hc, Option.getD_some]
    rw [Nat.mul_comm acc 10]
    exact ih (fun d hd => hall d (List.mem_cons_of_mem _ hd)) _

theorem takeWhile_digits (ds : List Char) (hall : ∀ c ∈ ds, isDecimalDigit c = true) :
    ds.takeWhile (isRadixDigit 10) = ds := by
  rw [List.takeWhile_eq_self_iff]
  intro c hc
  exact isRadixDigit_ten c (hall c hc)

theorem startsWithHexMark_digits (ds : List Char) (hall : ∀ c ∈ ds, isDecimalDigit c = true) :
    startsWithHexMark ds = false := by
  match ds, hall with
  | [], _ => simp [startsWithHexMark]
  | [a], _ => simp [startsWithHexMark]
  | a :: b :: rest, hall =>
    have hb := hall b (by simp)
    simp only [isDecimalDigit, Bool.and_eq_true, decide_eq_true_eq] at hb
    simp only [startsWithHexMark, List.take, decide_eq_false_iff_not]
    intro hc
    rcases hc with hc | hc <;>
    · have h2 : b = 'x' ∨ b = 'X' := by simp_all
      rcases h2 with h2 | h2 <;> (rw [h2] at hb; revert hb; decide)

/-- What `parseInt` computes once white space and sign are gone and the rest is digits. -/
theorem parseIntChars_core (input ds : List Char) (neg : Bool)
    (hneg : ((trimStart input).head? = some '-') ↔ neg = true)
    (hds : dropSign (trimStart input) = ds)
    (hne : ds ≠ []) (hall : ∀ c ∈ ds, isDecimalDigit c = true)
    (n : Nat) (hn : ds.foldl (fun acc c => 10 * acc + (c.toNat - 48)) 0 = n) (hsafe : n < 2 ^ 53) :
    parseIntChars input 0 = .integer neg n := by
  have hneg2 : decide ((trimStart input).head? = some '-') = neg := by
    cases neg <;> simp_all
  have hm : mathIntOf 10 ds = n := by
    unfold mathIntOf
    rw [foldl_digits ds hall, hn]
  simp only [parseIntChars, hds, hneg2, startsWithHexMark_digits ds hall]
  simp only [ne_eq, not_true_eq_false, false_and, if_false, if_true, Bool.and_false,
    Bool.false_eq_true, takeWhile_digits ds hall, hm, roundToDouble_of_lt n hsafe, hne]
  split
  · rename_i h0
    rw [h0]
  · rfl

theorem decimalValue_some (ds : List Char) (n : Nat) (h : decimalValue ds = some n) :
    ds ≠ [] ∧ (∀ c ∈ ds, isDecimalDigit c = true) ∧
      ds.foldl (fun acc c => 10 * acc + (c.toNat - 48)) 0 = n := by
  unfold decimalValue at h
  split at h
  · rename_i hc
    injection h with h
    exact ⟨hc.1, by simpa using hc.2, h⟩
  · exact absurd h (by simp)

theorem numberToString_integer (neg : Bool) (n : Nat) (hsafe : n < 2 ^ 53) :
    numberToString (.integer neg n) = integerText (if neg then -(n : Int) else n) := by
  by_cases h0 : n = 0
  · subst h0
    cases neg <;> rfl
  · have hpos : 0 < n := Nat.pos_of_ne_zero h0
    simp only [numberToString, if_neg h0, renderInteger_of_lt n hsafe]
    cases neg
    · have : ¬ ((n : Int) < 0) := by omega
      simp [integerText, this]
    · have : (-(n : Int) < 0) := by omega
      simp [integerText, this]

theorem parseInt_readInteger (text : String) (v : Int) (h : readInteger text = some v)
    (hsafe : v.natAbs < 2 ^ 53) :
    numberToString (parseInt text 0) = integerText v := by
  unfold readInteger at h
  simp only at h
  unfold parseInt
  generalize text.toList = cs at h
  split_ifs at h with h1 h2
  · obtain ⟨n, hn, hv⟩ := Option.map_eq_some'.1 h
    obtain ⟨hne, hall, hfold⟩ := decimalValue_some _ _ hn
    match cs, h1 with
    | c :: ds, h1 =>
      have hc : c = '-' := by simpa using h1
      subst hc
      have hn2 : n < 2 ^ 53 := by rw [← hv] at hsafe; simpa using hsafe
      rw [parseIntChars_core ('-' :: ds) ds true (by simp [trimStart, isWhiteSpace])
        (by simp [trimStart, isWhiteSpace, dropSign]) hne hall n hfold hn2]
      rw [numberToString_integer true n hn2, ← hv]
      rfl
  · obtain ⟨n, hn, hv⟩ := Option.map_eq_some'.1 h
    obtain ⟨hne, hall, hfold⟩ := decimalValue_some _ _ hn
    match cs, h2 with
    | c :: ds, h2 =>
      have hc : c = '+' := by simpa using h2
      subst hc
      have hn2 : n < 2 ^ 53 := by rw [← hv] at hsafe; simpa using hsafe
      rw [parseIntChars_core ('+' :: ds) ds false (by simp [trimStart, isWhiteSpace])
        (by simp [trimStart, isWhiteSpace, dropSign]) hne hall n hfold hn2]
      rw [numberToString_integer false n hn2, ← hv]
      rfl
  · obtain ⟨n, hn, hv⟩ := Option.map_eq_some'.1 h
    obtain ⟨hne, hall, hfold⟩ := decimalValue_some _ _ hn
    have hn2 : n < 2 ^ 53 := by rw [← hv] at hsafe; simpa using hsafe
    match cs, hne, h1, h2, hall with
    | c :: ds, _, h1, h2, hall =>
      have hcd := hall c (List.mem_cons_self _ _)
      have hws := isWhiteSpace_digit c hcd
      have h1 : ¬ c = '-' := by simpa using h1
      have h2 : ¬ c = '+' := by simpa using h2
      rw [parseIntChars_core (c :: ds) (c :: ds) false (by simp [trimStart, hws, h1])
        (by simp [trimStart, hws, dropSign, h1, h2]) (by simp) hall n hfold hn2]
      rw [numberToString_integer false n hn2, ← hv]
      rfl

/-! ## Lemmas on the listener and the promise chain -/

theorem dispatchClick_single (csrftoken : String) (ratingButtons : List Group) (button : Group)
    (target : Element) (w : World)
    (hpath : ratingButtons.filter (fun g => g.contains target) = [button]) :
    dispatchClick csrftoken ratingButtons target w =
      ((clickListener csrftoken button target w).1, [(clickListener csrftoken button target w).2]) := by
  unfold dispatchClick
  rw [hpath]
  rfl

theorem clickListener_fetches (csrftoken : String) (button : Group) (target : Element)
    (w : World) :
    (clickListener csrftoken button target w).1.fetches = w.fetches ++
      [{ url := "/rating/", method := "POST", headers := ratingHeaders csrftoken,
         body := [("post_id", numberToString (parseInt (stringOrUndefined (target.dataset "post")) 0)),
                  ("value", numberToString (parseInt (stringOrUndefined (target.dataset "value")) 0))] }] :=
  rfl

theorem settle_rejected (k : Continuation) (e : JSError) (w : World) :
    k.settle (.rejected e) w = ({ w with console := w.console ++ [e] }, .ok ()) := rfl

theorem settle_unparsed (k : Continuation) (status : Nat) (e : JSError) (w : World) :
    k.settle (.fulfilled { status := status, json := .error e }) w =
      ({ w with console := w.console ++ [e] }, .ok ()) := rfl

theorem settle_parsed (k : Continuation) (status : Nat) (data : JSValue) (w : World) :
    k.settle (.fulfilled { status := status, json := .ok data }) w =
      match readRatingSum data with
      | .error e => ({ w with console := w.console ++ [e] }, .ok ())
      | .ok v =>
        match k.ratingSum with
        | none => ({ w with console := w.console ++ [.cannotSetProperty "textContent"] }, .ok ())
        | some el =>
          ({ w with
              text := setText w.text el.id (textContentString v)
              writes := w.writes ++ [(el.id, textContentString v)] }, .ok ()) := by
  cases hr : readRatingSum data with
  | error e => simp [Continuation.settle, Settled.andThen, Settled.orCatch, hr, consoleError]
  | ok v =>
    cases hk : k.ratingSum with
    | none =>
      simp [Continuation.settle, Settled.andThen, Settled.orCatch, hr, hk, consoleError,
        setTextContent]
    | some el =>
      simp [Continuation.settle, Settled.andThen, Settled.orCatch, hr, hk, setTextContent]

theorem isRadixDigit_ten_false (c : Char) (h : isDecimalDigit c = false) :
    isRadixDigit 10 c = false := by
  simp only [isDecimalDigit, Bool.and_eq_false_iff, decide_eq_false_iff_not] at h
  unfold isRadixDigit digitValue
  split_ifs with h1 h2 h3
  · omega
  · simp only [decide_eq_false_iff_not]; omega
  · simp only [decide_eq_false_iff_not]; omega
  · rfl

theorem startsWithHexMark_nondigit (c : Char) (rest : List Char)
    (h : isDecimalDigit c = false) : startsWithHexMark (c :: rest) = false := by
  have hc : c ≠ '0' := by
    intro h0
    rw [h0] at h
    revert h
    decide
  cases rest <;> simp [startsWithHexMark, hc]

theorem parseInt_nan_of_lacksLeadingDigit (attr : Option String)
    (h : lacksLeadingDigit attr = true) : parseInt (stringOrUndefined attr) 0 = .nan := by
  cases attr with
  | none => decide
  | some s =>
    simp only [lacksLeadingDigit] at h
    simp only [stringOrUndefined, parseInt, parseIntChars]
    generalize dropSign (trimStart s.toList) = S at h
    cases S with
    | nil => simp [startsWithHexMark]
    | cons c rest =>
      have hc : isDecimalDigit c = false := by simpa using h
      simp [startsWithHexMark_nondigit c rest hc, List.takeWhile_cons,
        isRadixDigit_ten_false c hc]

theorem parseInt_default_radix (s : String) :
    parseInt s 0 = parseInt s (if hasHexMark s = true then 16 else 10) := by
  unfold hasHexMark parseInt parseIntChars
  generalize trimStart s.toList = T
  cases h : startsWithHexMark (dropSign T) <;> simp [h]

theorem settle_text_other (k : Continuation) (outcome : FetchOutcome) (w : World) (i : Nat)
    (h : ∀ el, k.ratingSum = some el → el.id ≠ i) :
    (k.settle outcome w).1.text i = w.text i := by
  cases outcome with
  | rejected e => rfl
  | fulfilled response =>
    obtain ⟨status, body⟩ := response
    cases body with
    | error e => rfl
    | ok data =>
      rw [settle_parsed]
      cases readRatingSum data with
      | error e => rfl
      | ok v =>
        cases hk : k.ratingSum with
        | none => rfl
        | some el =>
          have hne := h el hk
          simp only [setText]
          rw [if_neg (fun hi => hne hi.symm)]

theorem settle_fetches (k : Continuation) (outcome : FetchOutcome) (w : World) :
    (k.settle outcome w).1.fetches = w.fetches := by
  cases outcome with
  | rejected e => rfl
  | fulfilled response =>
    obtain ⟨status, body⟩ := response
    cases body with
    | error e => rfl
    | ok data =>
      rw [settle_parsed]
      cases readRatingSum data with
      | error e => rfl
      | ok v => cases k.ratingSum <;> rfl

theorem settle_display_text (display : Element) (outcome : FetchOutcome) (w : World) :
    ((Continuation.mk (some display)).settle outcome w).1.text display.id =
      ((successSum outcome).map textContentString).getD (w.text display.id) := by
  cases outcome with
  | rejected e => rfl
  | fulfilled response =>
    obtain ⟨status, body⟩ := response
    cases body with
    | error e => rfl
    | ok data =>
      rw [settle_parsed]
      simp only [successSum]
      cases readRatingSum data with
      | error e => rfl
      | ok v => simp [setText]

theorem settleAll_display_text (display : Element) (os : List FetchOutcome) :
    ∀ w : World, (settleAll { ratingSum := some display } os w).text display.id =
      ((lastSuccessfulSum os).map textContentString).getD (w.text display.id) := by
  induction os with
  | nil => intro w; rfl
  | cons o os ih =>
    intro w
    simp only [settleAll, lastSuccessfulSum]
    rw [ih]
    cases lastSuccessfulSum os with
    | some v => rfl
    | none => exact settle_display_text display o w

theorem listeners_fetches (csrftoken : String) (target : Element) (buttons : List Group) :
    ∀ acc : World × List Continuation, ∃ bodies : List FormData,
      (buttons.foldl
        (fun acc button =>
          let r := clickListener csrftoken button target acc.1
          (r.1, acc.2 ++ [r.2])) acc).1.fetches =
      acc.1.fetches ++ bodies.map (fun body =>
        { url := "/rating/", method := "POST", headers := ratingHeaders csrftoken,
          body := body }) := by
  induction buttons with
  | nil => intro acc; exact ⟨[], by simp⟩
  | cons b bs ih =>
    intro acc
    obtain ⟨bodies, hb⟩ := ih
      ((clickListener csrftoken b target acc.1).1, acc.2 ++ [(clickListener csrftoken b target acc.1).2])
    refine ⟨[("post_id", numberToString (parseInt (stringOrUndefined (target.dataset "post")) 0)),
        ("value", numberToString (parseInt (stringOrUndefined (target.dataset "value")) 0))]
      :: bodies, ?_⟩
    rw [List.foldl_cons, hb, clickListener_fetches]
    simp

/-! ## The claims -/

/-- C1 (as amended): when both attribute texts are integer numerals whose magnitude is below
`2 ^ 53` and the clicked control lies in exactly one rating group, the click issues exactly
one request, a POST whose form body has exactly the two fields `post_id` and `value`, in
that order, holding the decimal numerals of the integer of `data-post` and of the integer
of `data-value`. -/
theorem click_posts_both_integers (csrftoken : String) (ratingButtons : List Group)
    (button : Group) (target : Element) (w : World) (valueText postText : String)
    (value postId : Int)
    (hpath : ratingButtons.filter (fun g => g.contains target) = [button])
    (hvalue : target.dataset "value" = some valueText)
    (hpost : target.dataset "post" = some postText)
    (hv : readInteger valueText = some value)
    (hp : readInteger postText = some postId)
    (hvsafe : value.natAbs < 2 ^ 53)
    (hpsafe : postId.natAbs < 2 ^ 53) :
    (dispatchClick csrftoken ratingButtons target w).1.fetches = w.fetches ++
      [{ url := "/rating/", method := "POST", headers := ratingHeaders csrftoken,
         body := [("post_id", integerText postId), ("value", integerText value)] }] := by
  rw [dispatchClick_single csrftoken ratingButtons button target w hpath,
    clickListener_fetches, hvalue, hpost]
  simp only [stringOrUndefined]
  rw [parseInt_readInteger valueText value hv hvsafe, parseInt_readInteger postText postId hp hpsafe]

/-- Witness of C1: the control with `data-value="1" data-post="7"` sends `post_id` 7 and
`value` 1. -/
theorem click_posts_both_integers_witness :
    [groupSeven, groupEight].filter (fun g => g.contains plusOne) = [groupSeven] ∧
    readInteger "1" = some 1 ∧ readInteger "7" = some 7 ∧
    (dispatchClick "token" [groupSeven, groupEight] plusOne freshPage).1.fetches =
      freshPage.fetches ++
      [{ url := "/rating/", method := "POST", headers := ratingHeaders "token",
         body := [("post_id", integerText 7), ("value", integerText 1)] }] :=
  ⟨by decide, by decide, by decide,
    click_posts_both_integers "token" [groupSeven, groupEight] groupSeven plusOne freshPage
      "1" "7" 1 7 (by decide) (by decide) (by decide) (by decide) (by decide) (by decide)
      (by decide)⟩

/-- Counterexample to C1 as stated: `data-post="9007199254740993"` is an integer numeral, yet
the `post_id` field sent is `9007199254740992`. -/
theorem click_posts_rounded_integer :
    oddGroup.contains hugePostControl = true ∧
    hugePostControl.dataset "post" = some "9007199254740993" ∧
    readInteger "9007199254740993" = some 9007199254740993 ∧
    integerText 9007199254740993 = "9007199254740993" ∧
    (dispatchClick "token" [oddGroup] hugePostControl freshPage).1.fetches =
      [{ url := "/rating/", method := "POST", headers := ratingHeaders "token",
         body := [("post_id", "9007199254740992"), ("value", "1")] }] := by
  refine ⟨by decide, by decide, by decide, by decide, by decide⟩

/-- C2: once a request is answered with a JSON body whose `rating_sum` is the Number `n`,
the chain started by a click in a group with a display element leaves that element with
the text `Number::toString n`, whatever the state `w` (and so the display text) was before;
the response causes exactly one display write, logs nothing and sends nothing. -/
theorem response_sum_becomes_display_text (csrftoken : String) (button : Group)
    (target display : Element) (clickedAt w : World) (status : Nat) (data : JSValue)
    (n : JSNumber)
    (hdisplay : button.querySelector "rating-sum" = some display)
    (hsum : readRatingSum data = .ok (.number n)) :
    (((clickListener csrftoken button target clickedAt).2.settle
        (.fulfilled { status := status, json := .ok data }) w).1.text display.id
      = numberToString n) ∧
    (((clickListener csrftoken button target clickedAt).2.settle
        (.fulfilled { status := status, json := .ok data }) w).1.writes
      = w.writes ++ [(display.id, numberToString n)]) ∧
    (((clickListener csrftoken button target clickedAt).2.settle
        (.fulfilled { status := status, json := .ok data }) w).1.console = w.console) ∧
    (((clickListener csrftoken button target clickedAt).2.settle
        (.fulfilled { status := status, json := .ok data }) w).1.fetches = w.fetches) := by
  have hk : (clickListener csrftoken button target clickedAt).2.ratingSum = some display :=
    hdisplay
  rw [settle_parsed, hsum]
  simp only [hk]
  refine ⟨?_, ?_, ?_, ?_⟩ <;> simp [setText, textContentString, JSValue.toStr]

/-- Witness of C2: with the display at `10`, the response `rating_sum: 42` turns it into the
text `42`. -/
theorem response_sum_becomes_display_text_witness :
    groupSeven.querySelector "rating-sum" = some sumOfSeven ∧
    readRatingSum (sumBody 42) = .ok (.number (.integer false 42)) ∧
    freshPage.text sumOfSeven.id = "10" ∧
    ((clickListener "token" groupSeven plusOne freshPage).2.settle
        (.fulfilled { status := 200, json := .ok (sumBody 42) })
        (clickListener "token" groupSeven plusOne freshPage).1).1.text sumOfSeven.id = "42" :=
  ⟨by decide, rfl, by decide,
    (response_sum_becomes_display_text "token" groupSeven plusOne sumOfSeven freshPage
      (clickListener "token" groupSeven plusOne freshPage).1 200 (sumBody 42)
      (.integer false 42) (by decide) rfl).1.trans (by decide)⟩

/-- C3: when the promise of `fetch` rejects, or the body of the response does not parse as
JSON, handling the completion changes nothing but the console, which receives exactly one
entry (the error); no request is sent again and the chain ends fulfilled.  With the click
included, every element text equals its text before the click and one request was sent. -/
theorem failure_logs_once_and_keeps_text (csrftoken : String) (button : Group)
    (target : Element) (k : Continuation) (w : World) (e : JSError) (status : Nat) :
    (k.settle (.rejected e) w = ({ w with console := w.console ++ [e] }, .ok ())) ∧
    (k.settle (.fulfilled { status := status, json := .error e }) w
      = ({ w with console := w.console ++ [e] }, .ok ())) ∧
    ((clickThenSettle csrftoken button target (.rejected e) w).1.text = w.text) ∧
    ((clickThenSettle csrftoken button target
        (.fulfilled { status := status, json := .error e }) w).1.text = w.text) ∧
    ((clickThenSettle csrftoken button target (.rejected e) w).1.console
      = w.console ++ [e]) ∧
    ((clickThenSettle csrftoken button target
        (.fulfilled { status := status, json := .error e }) w).1.console = w.console ++ [e]) ∧
    ((clickThenSettle csrftoken button target (.rejected e) w).1.fetches.length
      = w.fetches.length + 1) ∧
    ((clickThenSettle csrftoken button target
        (.fulfilled { status := status, json := .error e }) w).1.fetches.length
      = w.fetches.length + 1) := by
  refine ⟨rfl, rfl, rfl, rfl, rfl, rfl, ?_, ?_⟩ <;>
    simp [clickThenSettle, settle_rejected, settle_unparsed, clickListener_fetches]

/-- Counterexample to C4 as stated: a response with status 500 whose body is the JSON
`rating_sum: 99` overwrites the display (`10` becomes `99`), and one with status 403 whose
body is a JSON object without `rating_sum` empties it; nothing is logged in either case. -/
theorem error_status_with_json_body_is_written :
    freshPage.text sumOfSeven.id = "10" ∧
    (clickThenSettle "token" groupSeven plusOne
      (.fulfilled { status := 500, json := .ok (sumBody 99) }) freshPage).1.text sumOfSeven.id
      = "99" ∧
    (clickThenSettle "token" groupSeven plusOne
      (.fulfilled { status := 500, json := .ok (sumBody 99) }) freshPage).1.console = [] ∧
    (clickThenSettle "token" groupSeven plusOne
      (.fulfilled { status := 403, json := .ok (.object [("detail", .string "forbidden")]) })
      freshPage).1.text sumOfSeven.id = "" ∧
    (clickThenSettle "token" groupSeven plusOne
      (.fulfilled { status := 403, json := .ok (.object [("detail", .string "forbidden")]) })
      freshPage).1.console = [] := by
  refine ⟨by decide, by decide, by decide, by decide, by decide⟩

/-- C4 (as amended): the status of a response plays no part in its handling, which is that
of a response with status 200 and the same body; a response of any status is handled as a
failure (the error logged once, nothing else changed) when its body does not parse as
JSON. -/
theorem status_is_not_inspected (k : Continuation) (w : World) (status : Nat)
    (body : Except JSError JSValue) (e : JSError) :
    (k.settle (.fulfilled { status := status, json := body }) w
      = k.settle (.fulfilled { status := 200, json := body }) w) ∧
    (k.settle (.fulfilled { status := status, json := .error e }) w
      = ({ w with console := w.console ++ [e] }, .ok ())) :=
  ⟨rfl, rfl⟩

/-- C5: let `A` and `B` be rating groups with no element in common, `B` with the display
`b`, and let a click hit a control that lies in `A` only.  The click changes no text; the
chain it starts, settled with any outcome in any later state, leaves the text of `b` as it
was; and the one request issued carries as `post_id` the reading of the clicked control's
own `data-post` attribute (and as `value` that of its `data-value`), whatever `B`
contains. -/
theorem other_group_is_untouched (csrftoken : String) (ratingButtons : List Group)
    (A B : Group) (target b : Element) (outcome : FetchOutcome) (w later : World)
    (hpath : ratingButtons.filter (fun g => g.contains target) = [A])
    (hdistinct : ∀ x ∈ A.descendants, ∀ y ∈ B.descendants, x.id ≠ y.id)
    (hb : B.querySelector "rating-sum" = some b) :
    (dispatchClick csrftoken ratingButtons target w).1.text = w.text ∧
    (∀ k ∈ (dispatchClick csrftoken ratingButtons target w).2,
      (k.settle outcome later).1.text b.id = later.text b.id) ∧
    (dispatchClick csrftoken ratingButtons target w).1.fetches = w.fetches ++
      [{ url := "/rating/", method := "POST", headers := ratingHeaders csrftoken,
         body := [("post_id",
                    numberToString (parseInt (stringOrUndefined (target.dataset "post")) 0)),
                  ("value",
                    numberToString (parseInt (stringOrUndefined (target.dataset "value")) 0))] }] := by
  rw [dispatchClick_single csrftoken ratingButtons A target w hpath]
  refine ⟨rfl, ?_, clickListener_fetches csrftoken A target w⟩
  intro k hk
  have hk2 : k = (clickListener csrftoken A target w).2 := by simpa using hk
  subst hk2
  apply settle_text_other
  intro el hel
  have hmemA : el ∈ A.descendants := List.mem_of_find?_eq_some hel
  have hmemB : b ∈ B.descendants := List.mem_of_find?_eq_some hb
  exact hdistinct el hmemA b hmemB

/-- Witness of C5: a click on the control of the group of post 7, answered with
`rating_sum: 11`, leaves the display of the group of post 8 at `5` and sends `post_id` 7. -/
theorem other_group_is_untouched_witness :
    [groupSeven, groupEight].filter (fun g => g.contains plusOne) = [groupSeven] ∧
    (∀ x ∈ groupSeven.descendants, ∀ y ∈ groupEight.descendants, x.id ≠ y.id) ∧
    groupEight.querySelector "rating-sum" = some sumOfEight ∧
    ((dispatchClick "token" [groupSeven, groupEight] plusOne freshPage).1.text = freshPage.text ∧
    (∀ k ∈ (dispatchClick "token" [groupSeven, groupEight] plusOne freshPage).2,
      (k.settle (.fulfilled { status := 200, json := .ok (sumBody 11) })
        (dispatchClick "token" [groupSeven, groupEight] plusOne freshPage).1).1.text sumOfEight.id
      = (dispatchClick "token" [groupSeven, groupEight] plusOne freshPage).1.text sumOfEight.id) ∧
    (dispatchClick "token" [groupSeven, groupEight] plusOne freshPage).1.fetches =
      freshPage.fetches ++
      [{ url := "/rating/", method := "POST", headers := ratingHeaders "token",
         body := [("post_id",
                    numberToString (parseInt (stringOrUndefined (plusOne.dataset "post")) 0)),
                  ("value",
                    numberToString (parseInt (stringOrUndefined (plusOne.dataset "value")) 0))] }]) :=
  ⟨by decide, by decide, by decide,
    other_group_is_untouched "token" [groupSeven, groupEight] groupSeven groupEight plusOne
      sumOfEight (.fulfilled { status := 200, json := .ok (sumBody 11) }) freshPage
      (dispatchClick "token" [groupSeven, groupEight] plusOne freshPage).1
      (by decide) (by decide) (by decide)⟩

/-- Counterexample to C6 as stated: the attribute text `12abc` is not a number, yet the
click sends the field `value` as `12`, not as `NaN`. -/
theorem digits_then_letters_send_the_digits :
    oddGroup.contains mixedValueControl = true ∧
    mixedValueControl.dataset "value" = some "12abc" ∧
    readInteger "12abc" = none ∧
    (dispatchClick "token" [oddGroup] mixedValueControl freshPage).1.fetches =
      [{ url := "/rating/", method := "POST", headers := ratingHeaders "token",
         body := [("post_id", "7"), ("value", "12")] }] := by
  refine ⟨by decide, by decide, by decide, by decide⟩

/-- C6 (as amended): a click on a control that lies in exactly one group issues exactly one
POST request with the two fields, whatever the attributes are; a field whose attribute is
absent, or does not begin (after leading white space and one sign) with a decimal digit, is
sent as `NaN`. -/
theorem unreadable_attribute_is_sent_as_NaN (csrftoken : String) (ratingButtons : List Group)
    (button : Group) (target : Element) (w : World)
    (hpath : ratingButtons.filter (fun g => g.contains target) = [button]) :
    ∃ postField valueField : String,
      (dispatchClick csrftoken ratingButtons target w).1.fetches = w.fetches ++
        [{ url := "/rating/", method := "POST", headers := ratingHeaders csrftoken,
           body := [("post_id", postField), ("value", valueField)] }] ∧
      (lacksLeadingDigit (target.dataset "post") = true → postField = "NaN") ∧
      (lacksLeadingDigit (target.dataset "value") = true → valueField = "NaN") := by
  refine ⟨numberToString (parseInt (stringOrUndefined (target.dataset "post")) 0),
    numberToString (parseInt (stringOrUndefined (target.dataset "value")) 0), ?_, ?_, ?_⟩
  · rw [dispatchClick_single csrftoken ratingButtons button target w hpath]
    exact clickListener_fetches csrftoken button target w
  · intro h
    rw [parseInt_nan_of_lacksLeadingDigit _ h]
    rfl
  · intro h
    rw [parseInt_nan_of_lacksLeadingDigit _ h]
    rfl

/-- Witness of C6: a control with `data-value="abc"` and no `data-post` sends both fields
as `NaN`. -/
theorem unreadable_attribute_is_sent_as_NaN_witness :
    [oddGroup].filter (fun g => g.contains wordValueControl) = [oddGroup] ∧
    wordValueControl.dataset "value" = some "abc" ∧
    wordValueControl.dataset "post" = none ∧
    lacksLeadingDigit (wordValueControl.dataset "post") = true ∧
    lacksLeadingDigit (wordValueControl.dataset "value") = true ∧
    (dispatchClick "token" [oddGroup] wordValueControl freshPage).1.fetches =
      [{ url := "/rating/", method := "POST", headers := ratingHeaders "token",
         body := [("post_id", "NaN"), ("value", "NaN")] }] ∧
    ∃ postField valueField : String,
      (dispatchClick "token" [oddGroup] wordValueControl freshPage).1.fetches =
        freshPage.fetches ++
        [{ url := "/rating/", method := "POST", headers := ratingHeaders "token",
           body := [("post_id", postField), ("value", valueField)] }] ∧
      (lacksLeadingDigit (wordValueControl.dataset "post") = true → postField = "NaN") ∧
      (lacksLeadingDigit (wordValueControl.dataset "value") = true → valueField = "NaN") :=
  ⟨by decide, by decide, by decide, by decide, by decide, by decide,
    unreadable_attribute_is_sent_as_NaN "token" [oddGroup] oddGroup wordValueControl freshPage
      (by decide)⟩

/-- C7: every call to `fetch` made while a click is dispatched has the path `/rating/`, the
method `POST` and exactly the two headers `X-CSRFToken`, holding the page-global token as it
is, and `X-Requested-With: XMLHttpRequest`; only the body varies with the clicked control.
Settling a promise chain makes no call to `fetch`. -/
theorem every_request_is_the_fixed_post (csrftoken : String) (ratingButtons : List Group)
    (target : Element) (w : World) (k : Continuation) (outcome : FetchOutcome) :
    (∃ bodies : List FormData,
      (dispatchClick csrftoken ratingButtons target w).1.fetches = w.fetches ++
        bodies.map (fun body =>
          { url := "/rating/", method := "POST",
            headers := [("X-CSRFToken", csrftoken), ("X-Requested-With", "XMLHttpRequest")],
            body := body })) ∧
    (k.settle outcome w).1.fetches = w.fetches :=
  ⟨listeners_fetches csrftoken target _ (w, []), settle_fetches k outcome w⟩

/-- C8: when the completions of one group with display `display` are handled in the order
`os` (the resolution order), the display text at the end is the text form of the
`rating_sum` of the last successful completion of `os`, or the initial text when none
succeeded; every chain a click starts in a group closes over that group's display; and of
two successful responses the one handled later decides the text, also when it answers the
earlier click. -/
theorem display_shows_last_successful_sum (csrftoken : String) (button : Group)
    (target display : Element) (os : List FetchOutcome) (w clickedAt : World)
    (older newer : JSNumber) (statusOlder statusNewer : Nat) :
    (settleAll { ratingSum := some display } os w).text display.id =
      ((lastSuccessfulSum os).map textContentString).getD (w.text display.id) ∧
    (clickListener csrftoken button target clickedAt).2 =
      { ratingSum := button.querySelector "rating-sum" } ∧
    (settleAll { ratingSum := some display }
      [.fulfilled { status := statusNewer, json := .ok (.object [("rating_sum", .number newer)]) },
       .fulfilled { status := statusOlder, json := .ok (.object [("rating_sum", .number older)]) }]
      w).text display.id = numberToString older := by
  refine ⟨settleAll_display_text display os w, rfl, ?_⟩
  rw [settleAll_display_text]
  rfl

/-- Counterexample to C9 as stated: for `data-value="0x10"` the field sent is `16`, while
the base-10 reading of that text (`parseInt` with radix 10) is `0`. -/
theorem hex_mark_is_read_as_hexadecimal :
    hexValueControl.dataset "value" = some "0x10" ∧
    (clickListener "token" oddGroup hexValueControl freshPage).1.fetches =
      [{ url := "/rating/", method := "POST", headers := ratingHeaders "token",
         body := [("post_id", "7"), ("value", "16")] }] ∧
    numberToString (parseInt "0x10" 10) = "0" := by
  refine ⟨by decide, by decide, by decide⟩

/-- C9 (as amended): both attributes are parsed without a radix argument: the value placed
in the payload is the base-10 reading of the text, except for a text that (after leading
white space and one sign) starts with `0x` or `0X`, which is read in base 16. -/
theorem payload_radix_follows_hex_mark (csrftoken : String) (button : Group)
    (target : Element) (w : World) :
    (clickListener csrftoken button target w).1.fetches = w.fetches ++
      [{ url := "/rating/", method := "POST", headers := ratingHeaders csrftoken,
         body :=
          [("post_id", numberToString (parseInt (stringOrUndefined (target.dataset "post"))
              (if hasHexMark (stringOrUndefined (target.dataset "post")) = true then 16 else 10))),
           ("value", numberToString (parseInt (stringOrUndefined (target.dataset "value"))
              (if hasHexMark (stringOrUndefined (target.dataset "value")) = true then 16
                else 10)))] }] := by
  rw [clickListener_fetches, ← parseInt_default_radix, ← parseInt_default_radix]

/-- C10: when the group has no display element and the clicked control lies in that group
only, the click still issues its one POST with the parsed payload and starts one chain;
whatever the outcome and the state in which it is handled, settling that chain adds exactly
one entry to the console, changes nothing else and ends fulfilled; for a response whose
body parsed and whose `rating_sum` could be read, the entry is the error of the display
write. -/
theorem missing_display_fails_at_the_write (csrftoken : String) (ratingButtons : List Group)
    (button : Group) (target : Element) (w later : World) (outcome : FetchOutcome)
    (hpath : ratingButtons.filter (fun g => g.contains target) = [button])
    (hnone : button.querySelector "rating-sum" = none) :
    (dispatchClick csrftoken ratingButtons target w).1.fetches = w.fetches ++
      [{ url := "/rating/", method := "POST", headers := ratingHeaders csrftoken,
         body := [("post_id",
                    numberToString (parseInt (stringOrUndefined (target.dataset "post")) 0)),
                  ("value",
                    numberToString (parseInt (stringOrUndefined (target.dataset "value")) 0))] }] ∧
    (dispatchClick csrftoken ratingButtons target w).2 = [{ ratingSum := none }] ∧
    (∃ e : JSError, (Continuation.mk none).settle outcome later =
      ({ later with console := later.console ++ [e] }, .ok ())) ∧
    (∀ (status : Nat) (data v : JSValue), readRatingSum data = .ok v →
      (Continuation.mk none).settle (.fulfilled { status := status, json := .ok data }) later =
        ({ later with console := later.console ++ [.cannotSetProperty "textContent"] },
          .ok ())) := by
  rw [dispatchClick_single csrftoken ratingButtons button target w hpath]
  refine ⟨clickListener_fetches csrftoken button target w, ?_, ?_, ?_⟩
  · show [(clickListener csrftoken button target w).2] = _
    simp only [clickListener, hnone]
  · cases outcome with
    | rejected e => exact ⟨e, rfl⟩
    | fulfilled response =>
      obtain ⟨status, body⟩ := response
      cases body with
      | error e => exact ⟨e, rfl⟩
      | ok data =>
        rw [settle_parsed]
        cases readRatingSum data with
        | error e => exact ⟨e, rfl⟩
        | ok v => exact ⟨.cannotSetProperty "textContent", rfl⟩
  · intro status data v hv
    rw [settle_parsed, hv]

/-- Witness of C10: the group without a display still sends `post_id` 9 and `value` 1, and
a response `rating_sum: 4` ends as one console entry. -/
theorem missing_display_fails_at_the_write_witness :
    [groupSeven, bareGroup].filter (fun g => g.contains loneControl) = [bareGroup] ∧
    bareGroup.querySelector "rating-sum" = none ∧
    (dispatchClick "token" [groupSeven, bareGroup] loneControl freshPage).1.fetches =
      [{ url := "/rating/", method := "POST", headers := ratingHeaders "token",
         body := [("post_id", "9"), ("value", "1")] }] ∧
    ((Continuation.mk none).settle (.fulfilled { status := 200, json := .ok (sumBody 4) })
      freshPage).1.console = [.cannotSetProperty "textContent"] :=
  ⟨by decide, by decide,
    (missing_display_fails_at_the_write "token" [groupSeven, bareGroup] bareGroup loneControl
      freshPage freshPage (.fulfilled { status := 200, json := .ok (sumBody 4) })
      (by decide) (by decide)).1.trans (by decide),
    by decide⟩

end Ratings
